import Mathlib

/-!
Verification of the Travel Reservation System (main.c).

The in-memory linked lists of the C program (users, flights, hotels,
reservations) are embedded as Lean lists; each C traversal loop becomes a
structurally recursive function on the list.  C `int` fields are embedded
as `Int` (signed overflow in the C source is undefined behaviour and none
of the verified properties depends on wraparound).  Interactive input
(`scanf`) becomes explicit function parameters; files become `Option`
values (`none` when `fopen` fails).
-/

namespace Booking

/-- User record from main.c (the `next` pointer becomes list structure). -/
structure User where
  username : String
  password : String
  isAdmin : Int
deriving DecidableEq

/-- Flight record from main.c. -/
structure Flight where
  flightNumber : Int
  origin : String
  destination : String
  departureTime : String
  arrivalTime : String
  seatsAvailable : Int
deriving DecidableEq

/-- Hotel record from main.c. -/
structure Hotel where
  hotelID : Int
  name : String
  location : String
  roomsAvailable : Int
deriving DecidableEq

/-- Reservation record from main.c: `flightNumber` or `hotelID` is -1 when
not applicable; `status` is one of "Pending", "Approved", "Rejected",
"Cancelled", "Cancel Requested". -/
structure Reservation where
  reservationID : Int
  username : String
  flightNumber : Int
  hotelID : Int
  status : String
deriving DecidableEq

/-! ## Search loops -/

/-- The `while` search loop of `flightExists`. -/
def flightExists : List Flight → Int → Bool
  | [], _ => false
  | f :: rest, flightNumber =>
    if f.flightNumber = flightNumber then true else flightExists rest flightNumber

/-- The `while` search loop of `hotelExists`. -/
def hotelExists : List Hotel → Int → Bool
  | [], _ => false
  | h :: rest, hotelID =>
    if h.hotelID = hotelID then true else hotelExists rest hotelID

/-- The flight search loop used by `calculateAvailableSeats`
(`while (flight && flight->flightNumber != flightNumber)`): first flight
with the given number, if any. -/
def findFlight : List Flight → Int → Option Flight
  | [], _ => none
  | f :: rest, flightNumber =>
    if f.flightNumber = flightNumber then some f else findFlight rest flightNumber

/-- The hotel search loop used by `calculateAvailableRooms`. -/
def findHotel : List Hotel → Int → Option Hotel
  | [], _ => none
  | h :: rest, hotelID =>
    if h.hotelID = hotelID then some h else findHotel rest hotelID

/-- The reservation search loop of `handleReservationApproval` and
`handleCancellationRequests`
(`while (current != NULL && current->reservationID != resID)`). -/
def findReservation : List Reservation → Int → Option Reservation
  | [], _ => none
  | r :: rest, resID =>
    if r.reservationID = resID then some r else findReservation rest resID

/-- The search condition of the `cancelUserReservation` loop: first
reservation with the given ID owned by the given user. -/
def findUserReservation : List Reservation → String → Int → Option Reservation
  | [], _, _ => none
  | r :: rest, username, resID =>
    if r.reservationID = resID ∧ r.username = username then some r
    else findUserReservation rest username resID

/-! ## Counting and availability -/

/-- Counting loop of `countReservationsByFlight`. -/
def countReservationsByFlight : List Reservation → Int → String → Nat
  | [], _, _ => 0
  | r :: rest, flightNumber, status =>
    if r.flightNumber = flightNumber ∧ r.status = status
    then countReservationsByFlight rest flightNumber status + 1
    else countReservationsByFlight rest flightNumber status

/-- Counting loop of `countReservationsByHotel`. -/
def countReservationsByHotel : List Reservation → Int → String → Nat
  | [], _, _ => 0
  | r :: rest, hotelID, status =>
    if r.hotelID = hotelID ∧ r.status = status
    then countReservationsByHotel rest hotelID status + 1
    else countReservationsByHotel rest hotelID status

/-- `calculateAvailableSeats`: seatsAvailable minus Approved count when the
flight exists, 0 otherwise. -/
def calculateAvailableSeats (flights : List Flight) (reservations : List Reservation)
    (flightNumber : Int) : Int :=
  let approved := countReservationsByFlight reservations flightNumber "Approved"
  match findFlight flights flightNumber with
  | some flight => flight.seatsAvailable - (approved : Int)
  | none => 0

/-- `calculateAvailableRooms`: roomsAvailable minus Approved count when the
hotel exists, 0 otherwise. -/
def calculateAvailableRooms (hotels : List Hotel) (reservations : List Reservation)
    (hotelID : Int) : Int :=
  let approved := countReservationsByHotel reservations hotelID "Approved"
  match findHotel hotels hotelID with
  | some hotel => hotel.roomsAvailable - (approved : Int)
  | none => 0

/-- The per-flight seat figure printed by `listFlightsUser`:
seatsAvailable minus (Pending + Approved) counts, clamped at 0. -/
def listFlightsUserAvailableSeats (reservations : List Reservation) (f : Flight) : Int :=
  let pendingReservations := countReservationsByFlight reservations f.flightNumber "Pending"
  let approvedReservations := countReservationsByFlight reservations f.flightNumber "Approved"
  let availableSeats : Int :=
    f.seatsAvailable - ((pendingReservations : Int) + (approvedReservations : Int))
  if availableSeats < 0 then 0 else availableSeats

/-! ## Reservation operations -/

/-- `makeFlightReservation`: the scanned flight number and the ID produced
by `generateReservationID` are parameters; returns the new reservation
list.  Typing 0 exits; a non-positive `calculateAvailableSeats` refuses;
otherwise a new "Pending" reservation with `hotelID = -1` is pushed at the
head of the list. -/
def makeFlightReservation (flights : List Flight) (reservations : List Reservation)
    (username : String) (flightNumber : Int) (newID : Int) : List Reservation :=
  if flightNumber = 0 then reservations
  else if calculateAvailableSeats flights reservations flightNumber ≤ 0 then reservations
  else
    { reservationID := newID, username := username, flightNumber := flightNumber,
      hotelID := -1, status := "Pending" } :: reservations

/-- `makeHotelReservation`: mirror of `makeFlightReservation` with
`flightNumber = -1`. -/
def makeHotelReservation (hotels : List Hotel) (reservations : List Reservation)
    (username : String) (hotelID : Int) (newID : Int) : List Reservation :=
  if hotelID = 0 then reservations
  else if calculateAvailableRooms hotels reservations hotelID ≤ 0 then reservations
  else
    { reservationID := newID, username := username, flightNumber := -1,
      hotelID := hotelID, status := "Pending" } :: reservations

/-- In-place status write on the node found by the reservation search loop:
the first reservation with the given ID gets the new status. -/
def updateFirstStatusById (resID : Int) (newStatus : String) :
    List Reservation → List Reservation
  | [] => []
  | r :: rest =>
    if r.reservationID = resID then { r with status := newStatus } :: rest
    else r :: updateFirstStatusById resID newStatus rest

/-- `handleReservationApproval`: the scanned reservation ID and decision
string are parameters.  ID 0 exits; an absent ID leaves the list unchanged;
decision "yes" writes "Approved", "no" writes "Rejected", anything else is
invalid input and changes nothing. -/
def handleReservationApproval (reservations : List Reservation)
    (resID : Int) (decision : String) : List Reservation :=
  if resID = 0 then reservations
  else
    match findReservation reservations resID with
    | none => reservations
    | some _ =>
      if decision = "yes" then updateFirstStatusById resID "Approved" reservations
      else if decision = "no" then updateFirstStatusById resID "Rejected" reservations
      else reservations

/-- The traversal loop of `cancelUserReservation`: at the first reservation
matching the ID and username, write "Cancel Requested" when the status is
"Approved" and stop, otherwise report and stop with no change. -/
def cancelLoop (username : String) (resID : Int) : List Reservation → List Reservation
  | [] => []
  | r :: rest =>
    if r.reservationID = resID ∧ r.username = username then
      if r.status = "Approved" then { r with status := "Cancel Requested" } :: rest
      else r :: rest
    else r :: cancelLoop username resID rest

/-- `cancelUserReservation`: ID 0 exits, otherwise run the loop. -/
def cancelUserReservation (reservations : List Reservation)
    (username : String) (resID : Int) : List Reservation :=
  if resID = 0 then reservations else cancelLoop username resID reservations

/-- `handleCancellationRequests`: decision "yes" writes "Cancelled", "no"
writes "Approved", "exit" or anything else changes nothing. -/
def handleCancellationRequests (reservations : List Reservation)
    (resID : Int) (decision : String) : List Reservation :=
  if resID = 0 then reservations
  else
    match findReservation reservations resID with
    | none => reservations
    | some _ =>
      if decision = "exit" then reservations
      else if decision = "yes" then updateFirstStatusById resID "Cancelled" reservations
      else if decision = "no" then updateFirstStatusById resID "Approved" reservations
      else reservations

/-! ## User registration -/

/-- The duplicate-check loop of `registerUser`. -/
def usernameExists : List User → String → Bool
  | [], _ => false
  | u :: rest, name => if u.username = name then true else usernameExists rest name

/-- `registerUser`: reject a duplicate username leaving the list unchanged,
otherwise append the new user at the end of the list. -/
def registerUser (users : List User) (newUser : User) : List User :=
  if usernameExists users newUser.username then users else users ++ [newUser]

/-! ## Persistence -/

/-- `loadUsers`: when `users.dat` cannot be opened (`none`) the in-memory
list is left as it is; otherwise it is replaced by the file records. -/
def loadUsers (file : Option (List User)) (head : List User) : List User :=
  match file with
  | none => head
  | some records => records

/-- `loadReservationsFromFile`: same shape as `loadUsers`. -/
def loadReservationsFromFile (file : Option (List Reservation))
    (reservationsHead : List Reservation) : List Reservation :=
  match file with
  | none => reservationsHead
  | some records => records

/-- `loadLastReservationID`: 1000 when `last_id.txt` cannot be opened,
otherwise the stored counter. -/
def loadLastReservationID (file : Option Int) : Int :=
  match file with
  | none => 1000
  | some lastID => lastID

/-- `saveLastReservationID`: the content of `last_id.txt` after the save. -/
def saveLastReservationID (lastID : Int) : Option Int := some lastID

/-- `generateReservationID`: the C `static int lastID` becomes explicit
state.  When the static is still 0 the persisted counter is loaded first;
the result is the incremented counter, which is both returned and stored
back into the static.  Returns (issued ID, new static state). -/
def generateReservationID (file : Option Int) (lastID : Int) : Int × Int :=
  let l := if lastID = 0 then loadLastReservationID file else lastID
  (l + 1, l + 1)

/-- IDs issued by `n` successive calls of `generateReservationID` in one
process run, starting from static state `lastID` with persisted file
`file`. -/
def genRunIDs (file : Option Int) : Nat → Int → List Int
  | 0, _ => []
  | n + 1, lastID =>
    (generateReservationID file lastID).1 ::
      genRunIDs file n (generateReservationID file lastID).2

/-- Final static state after `n` calls of `generateReservationID`. -/
def genRunFinal (file : Option Int) : Nat → Int → Int
  | 0, lastID => lastID
  | n + 1, lastID => genRunFinal file n (generateReservationID file lastID).2

/-! ## Invariant predicates -/

/-- Per-flight overbooking invariant from the spec: the number of Approved
reservations of each listed flight does not exceed its seatsAvailable. -/
def flightCapacityInvariant (flights : List Flight) (reservations : List Reservation) : Prop :=
  ∀ f ∈ flights,
    (countReservationsByFlight reservations f.flightNumber "Approved" : Int) ≤ f.seatsAvailable

/-- Per-hotel overbooking invariant. -/
def hotelCapacityInvariant (hotels : List Hotel) (reservations : List Reservation) : Prop :=
  ∀ h ∈ hotels,
    (countReservationsByHotel reservations h.hotelID "Approved" : Int) ≤ h.roomsAvailable

instance (flights : List Flight) (reservations : List Reservation) :
    Decidable (flightCapacityInvariant flights reservations) := by
  unfold flightCapacityInvariant
  infer_instance

instance (hotels : List Hotel) (reservations : List Reservation) :
    Decidable (hotelCapacityInvariant hotels reservations) := by
  unfold hotelCapacityInvariant
  infer_instance

/-- The two reference fields of a reservation, as a pair. -/
def refFields (r : Reservation) : Int × Int := (r.flightNumber, r.hotelID)

/-- Exactly one of `flightNumber` and `hotelID` carries a real key, the
other holds the sentinel -1. -/
def exactlyOneRef (r : Reservation) : Prop :=
  (r.hotelID = -1 ∧ r.flightNumber ≠ -1) ∨ (r.flightNumber = -1 ∧ r.hotelID ≠ -1)

instance (r : Reservation) : Decidable (exactlyOneRef r) := by
  unfold exactlyOneRef
  infer_instance

/-! ## Concrete counterexample state for the capacity invariant -/

/-- A single flight with one seat. -/
def oneSeatFlights : List Flight :=
  [{ flightNumber := 1, origin := "A", destination := "B", departureTime := "t1",
     arrivalTime := "t2", seatsAvailable := 1 }]

/-- Book the one-seat flight twice while both requests are still Pending,
then approve both requests. -/
def overbookedReservations : List Reservation :=
  handleReservationApproval
    (handleReservationApproval
      (makeFlightReservation oneSeatFlights
        (makeFlightReservation oneSeatFlights [] "u" 1 1001) "u" 1 1002)
      1001 "yes")
    1002 "yes"

/-! # Theorems -/


/-! ## Basic lemmas -/

theorem countReservationsByFlight_cons_of_status_ne (r : Reservation) (rs : List Reservation)
    (flightNumber : Int) (status : String) (h : r.status ≠ status) :
    countReservationsByFlight (r :: rs) flightNumber status
      = countReservationsByFlight rs flightNumber status := by
  simp only [countReservationsByFlight]
  rw [if_neg]
  rintro ⟨-, h2⟩
  exact h h2

theorem countReservationsByHotel_cons_of_status_ne (r : Reservation) (rs : List Reservation)
    (hotelID : Int) (status : String) (h : r.status ≠ status) :
    countReservationsByHotel (r :: rs) hotelID status
      = countReservationsByHotel rs hotelID status := by
  simp only [countReservationsByHotel]
  rw [if_neg]
  rintro ⟨-, h2⟩
  exact h h2

theorem calculateAvailableSeats_of_none (flights : List Flight) (rs : List Reservation)
    (fn : Int) (h : findFlight flights fn = none) :
    calculateAvailableSeats flights rs fn = 0 := by
  simp only [calculateAvailableSeats, h]

theorem calculateAvailableRooms_of_none (hotels : List Hotel) (rs : List Reservation)
    (hid : Int) (h : findHotel hotels hid = none) :
    calculateAvailableRooms hotels rs hid = 0 := by
  simp only [calculateAvailableRooms, h]

theorem findFlight_sound : ∀ (flights : List Flight) (fn : Int) (f : Flight),
    findFlight flights fn = some f → f ∈ flights ∧ f.flightNumber = fn
  | [], fn, f, h => by simp [findFlight] at h
  | g :: rest, fn, f, h => by
    by_cases hg : g.flightNumber = fn
    · simp only [findFlight, if_pos hg, Option.some.injEq] at h
      subst h
      exact ⟨List.mem_cons_self g rest, hg⟩
    · simp only [findFlight, if_neg hg] at h
      obtain ⟨hm, he⟩ := findFlight_sound rest fn f h
      exact ⟨List.mem_cons_of_mem g hm, he⟩

theorem findHotel_sound : ∀ (hotels : List Hotel) (hid : Int) (h : Hotel),
    findHotel hotels hid = some h → h ∈ hotels ∧ h.hotelID = hid
  | [], hid, h, hx => by simp [findHotel] at hx
  | g :: rest, hid, h, hx => by
    by_cases hg : g.hotelID = hid
    · simp only [findHotel, if_pos hg, Option.some.injEq] at hx
      subst hx
      exact ⟨List.mem_cons_self g rest, hg⟩
    · simp only [findHotel, if_neg hg] at hx
      obtain ⟨hm, he⟩ := findHotel_sound rest hid h hx
      exact ⟨List.mem_cons_of_mem g hm, he⟩

theorem makeFlightReservation_cases (flights : List Flight) (rs : List Reservation)
    (username : String) (fn newID : Int) :
    makeFlightReservation flights rs username fn newID = rs
    ∨ ((∃ f, findFlight flights fn = some f ∧ f ∈ flights ∧ f.flightNumber = fn)
        ∧ 0 < calculateAvailableSeats flights rs fn
        ∧ makeFlightReservation flights rs username fn newID
            = { reservationID := newID, username := username, flightNumber := fn,
                hotelID := -1, status := "Pending" } :: rs) := by
  unfold makeFlightReservation
  by_cases h0 : fn = 0
  · rw [if_pos h0]; left; rfl
  rw [if_neg h0]
  by_cases hle : calculateAvailableSeats flights rs fn ≤ 0
  · rw [if_pos hle]; left; rfl
  rw [if_neg hle]
  right
  refine ⟨?_, by omega, rfl⟩
  cases hff : findFlight flights fn with
  | none =>
    exact absurd (le_of_eq (calculateAvailableSeats_of_none flights rs fn hff)) hle
  | some f =>
    exact ⟨f, rfl, findFlight_sound flights fn f hff⟩

theorem makeHotelReservation_cases (hotels : List Hotel) (rs : List Reservation)
    (username : String) (hid newID : Int) :
    makeHotelReservation hotels rs username hid newID = rs
    ∨ ((∃ h, findHotel hotels hid = some h ∧ h ∈ hotels ∧ h.hotelID = hid)
        ∧ 0 < calculateAvailableRooms hotels rs hid
        ∧ makeHotelReservation hotels rs username hid newID
            = { reservationID := newID, username := username, flightNumber := -1,
                hotelID := hid, status := "Pending" } :: rs) := by
  unfold makeHotelReservation
  by_cases h0 : hid = 0
  · rw [if_pos h0]; left; rfl
  rw [if_neg h0]
  by_cases hle : calculateAvailableRooms hotels rs hid ≤ 0
  · rw [if_pos hle]; left; rfl
  rw [if_neg hle]
  right
  refine ⟨?_, by omega, rfl⟩
  cases hff : findHotel hotels hid with
  | none =>
    exact absurd (le_of_eq (calculateAvailableRooms_of_none hotels rs hid hff)) hle
  | some h =>
    exact ⟨h, rfl, findHotel_sound hotels hid h hff⟩

theorem flightCapacityInvariant_cons (flights : List Flight) (rs : List Reservation)
    (r : Reservation) (hst : r.status ≠ "Approved")
    (hF : flightCapacityInvariant flights rs) :
    flightCapacityInvariant flights (r :: rs) := by
  intro f hf
  rw [countReservationsByFlight_cons_of_status_ne r rs f.flightNumber "Approved" hst]
  exact hF f hf

theorem hotelCapacityInvariant_cons (hotels : List Hotel) (rs : List Reservation)
    (r : Reservation) (hst : r.status ≠ "Approved")
    (hH : hotelCapacityInvariant hotels rs) :
    hotelCapacityInvariant hotels (r :: rs) := by
  intro h hh
  rw [countReservationsByHotel_cons_of_status_ne r rs h.hotelID "Approved" hst]
  exact hH h hh

/-- C1 counterexample: starting from the empty reservation list (which
satisfies the capacity invariant), two makeFlightReservation calls followed
by two handleReservationApproval calls yield a state with 2 Approved
reservations on a flight with seatsAvailable = 1: the invariant is not
preserved by sequences that include handleReservationApproval. -/
theorem c1_counterexample :
    flightCapacityInvariant oneSeatFlights []
    ∧ ¬ flightCapacityInvariant oneSeatFlights overbookedReservations := by
  decide

/-- C1 (amended): the capacity invariant (Approved reservations per flight
and per hotel never exceed seatsAvailable and roomsAvailable) is preserved
by makeFlightReservation and makeHotelReservation, which only ever add a
Pending reservation after a booking-time availability check; it is not
re-validated by handleReservationApproval, which can therefore break it. -/
theorem c1_booking_preserves_capacity_invariant
    (flights : List Flight) (hotels : List Hotel) (rs : List Reservation)
    (u1 u2 : String) (fn hid id1 id2 : Int)
    (hF : flightCapacityInvariant flights rs)
    (hH : hotelCapacityInvariant hotels rs) :
    (flightCapacityInvariant flights (makeFlightReservation flights rs u1 fn id1)
      ∧ hotelCapacityInvariant hotels (makeFlightReservation flights rs u1 fn id1))
    ∧ (flightCapacityInvariant flights (makeHotelReservation hotels rs u2 hid id2)
      ∧ hotelCapacityInvariant hotels (makeHotelReservation hotels rs u2 hid id2)) := by
  constructor
  · rcases makeFlightReservation_cases flights rs u1 fn id1 with heq | ⟨-, -, heq⟩ <;> rw [heq]
    · exact ⟨hF, hH⟩
    · exact ⟨flightCapacityInvariant_cons flights rs _ (by show "Pending" ≠ "Approved"; decide) hF,
        hotelCapacityInvariant_cons hotels rs _ (by show "Pending" ≠ "Approved"; decide) hH⟩
  · rcases makeHotelReservation_cases hotels rs u2 hid id2 with heq | ⟨-, -, heq⟩ <;> rw [heq]
    · exact ⟨hF, hH⟩
    · exact ⟨flightCapacityInvariant_cons flights rs _ (by show "Pending" ≠ "Approved"; decide) hF,
        hotelCapacityInvariant_cons hotels rs _ (by show "Pending" ≠ "Approved"; decide) hH⟩

/-- Witness for the amended C1 at a concrete state. -/
theorem c1_booking_preserves_capacity_invariant_witness :
    (flightCapacityInvariant oneSeatFlights [] ∧ hotelCapacityInvariant [] [])
    ∧ ((flightCapacityInvariant oneSeatFlights (makeFlightReservation oneSeatFlights [] "a" 1 1001)
        ∧ hotelCapacityInvariant [] (makeFlightReservation oneSeatFlights [] "a" 1 1001))
      ∧ (flightCapacityInvariant oneSeatFlights (makeHotelReservation [] [] "a" 2 1002)
        ∧ hotelCapacityInvariant [] (makeHotelReservation [] [] "a" 2 1002))) :=
  ⟨⟨by decide, by decide⟩,
    c1_booking_preserves_capacity_invariant oneSeatFlights [] [] "a" "a" 1 2 1001 1002
      (by decide) (by decide)⟩

/-- C7: a missing persistence file leaves the corresponding collection in
its initial empty state, and the reservation ID counter starts at 1000. -/
theorem c7_missing_files_start_empty :
    loadUsers none [] = [] ∧ loadReservationsFromFile none [] = []
      ∧ loadLastReservationID none = 1000 :=
  ⟨rfl, rfl, rfl⟩

/-- C8: a flight or hotel absent from its list yields availability 0, so
the corresponding make-reservation call refuses and leaves the reservation
list unchanged. -/
theorem c8_absent_key_refused (flights : List Flight) (hotels : List Hotel)
    (rs : List Reservation) (u1 u2 : String) (fn hid id1 id2 : Int)
    (hf : findFlight flights fn = none) (hh : findHotel hotels hid = none) :
    calculateAvailableSeats flights rs fn = 0
    ∧ calculateAvailableRooms hotels rs hid = 0
    ∧ makeFlightReservation flights rs u1 fn id1 = rs
    ∧ makeHotelReservation hotels rs u2 hid id2 = rs := by
  refine ⟨calculateAvailableSeats_of_none flights rs fn hf,
    calculateAvailableRooms_of_none hotels rs hid hh, ?_, ?_⟩
  · rcases makeFlightReservation_cases flights rs u1 fn id1 with heq | ⟨⟨f, hsome, -⟩, -, -⟩
    · exact heq
    · rw [hf] at hsome; exact absurd hsome (by simp)
  · rcases makeHotelReservation_cases hotels rs u2 hid id2 with heq | ⟨⟨h, hsome, -⟩, -, -⟩
    · exact heq
    · rw [hh] at hsome; exact absurd hsome (by simp)

/-- Witness for C8 at a concrete state: flight 5 and hotel 7 do not exist. -/
theorem c8_absent_key_refused_witness :
    (findFlight oneSeatFlights 5 = none ∧ findHotel [] 7 = none)
    ∧ (calculateAvailableSeats oneSeatFlights [] 5 = 0
      ∧ calculateAvailableRooms [] [] 7 = 0
      ∧ makeFlightReservation oneSeatFlights [] "a" 5 1001 = []
      ∧ makeHotelReservation [] [] "a" 7 1002 = []) :=
  ⟨⟨by decide, by decide⟩,
    c8_absent_key_refused oneSeatFlights [] [] "a" "a" 5 7 1001 1002 (by decide) (by decide)⟩



/-! ## Reservation ID generation -/

theorem generateReservationID_of_ne (file : Option Int) (s : Int) (hs : s ≠ 0) :
    generateReservationID file s = (s + 1, s + 1) := by
  simp [generateReservationID, hs]

theorem generateReservationID_of_zero (file : Option Int) :
    generateReservationID file 0
      = (loadLastReservationID file + 1, loadLastReservationID file + 1) := by
  simp [generateReservationID]

theorem genRun_bounds (file : Option Int) :
    ∀ (n : Nat) (s : Int), 0 < s →
      List.Pairwise (· < ·) (genRunIDs file n s)
      ∧ (∀ a ∈ genRunIDs file n s, s < a ∧ a ≤ s + (n : Int))
      ∧ genRunFinal file n s = s + (n : Int)
  | 0, s, _ => by simp [genRunIDs, genRunFinal]
  | n + 1, s, hs => by
    have hs0 : s ≠ 0 := by omega
    obtain ⟨hp, hb, hf⟩ := genRun_bounds file n (s + 1) (by omega)
    simp only [genRunIDs, genRunFinal, generateReservationID_of_ne file s hs0]
    refine ⟨?_, ?_, ?_⟩
    · exact List.Pairwise.cons (fun a ha => (hb a ha).1) hp
    · intro a ha
      rcases List.mem_cons.1 ha with rfl | ha
      · push_cast
        omega
      · have := hb a ha
        push_cast at this ⊢
        omega
    · rw [hf]
      push_cast
      ring

theorem genRun_from_zero (file : Option Int) (hgood : 0 ≤ loadLastReservationID file)
    (n : Nat) :
    List.Pairwise (· < ·) (genRunIDs file n 0)
    ∧ (∀ a ∈ genRunIDs file n 0,
        loadLastReservationID file < a ∧ a ≤ genRunFinal file n 0)
    ∧ 0 ≤ genRunFinal file n 0 := by
  cases n with
  | zero => simp [genRunIDs, genRunFinal]
  | succ k =>
    obtain ⟨hp, hb, hf⟩ :=
      genRun_bounds file k (loadLastReservationID file + 1) (by omega)
    simp only [genRunIDs, genRunFinal, generateReservationID_of_zero file]
    refine ⟨?_, ?_, ?_⟩
    · exact List.Pairwise.cons (fun a ha => (hb a ha).1) hp
    · intro a ha
      rw [hf]
      rcases List.mem_cons.1 ha with rfl | ha
      · omega
      · have := hb a ha
        omega
    · rw [hf]
      omega

/-- C2: reservation IDs are strictly increasing within a run, and when the
final counter value (the last issued ID) is persisted with
saveLastReservationID and reloaded by the next run, every ID of the later
run is strictly greater than every ID of the earlier run.  The hypothesis
says the persisted counter read at the start of the first run is
non-negative (a missing file yields 1000). -/
theorem c2_reservation_ids_strictly_increasing (file1 : Option Int) (n m : Nat)
    (hgood : 0 ≤ loadLastReservationID file1) :
    List.Pairwise (· < ·) (genRunIDs file1 n 0)
    ∧ List.Pairwise (· < ·)
        (genRunIDs (saveLastReservationID (genRunFinal file1 n 0)) m 0)
    ∧ ∀ a ∈ genRunIDs file1 n 0,
        ∀ b ∈ genRunIDs (saveLastReservationID (genRunFinal file1 n 0)) m 0, a < b := by
  obtain ⟨hp1, hb1, hf1⟩ := genRun_from_zero file1 hgood n
  have hgood2 : 0 ≤ loadLastReservationID (saveLastReservationID (genRunFinal file1 n 0)) := by
    simpa [saveLastReservationID, loadLastReservationID] using hf1
  obtain ⟨hp2, hb2, -⟩ := genRun_from_zero (saveLastReservationID (genRunFinal file1 n 0)) hgood2 m
  refine ⟨hp1, hp2, ?_⟩
  intro a ha b hb
  have h1 := (hb1 a ha).2
  have h2 := (hb2 b hb).1
  simp only [saveLastReservationID, loadLastReservationID] at h2
  omega

/-- Witness for C2: a fresh first run (no last_id.txt) of two calls issues
1001 and 1002; after persisting, a second run of two calls issues 1003 and
1004. -/
theorem c2_reservation_ids_strictly_increasing_witness :
    0 ≤ loadLastReservationID none
    ∧ (List.Pairwise (· < ·) (genRunIDs none 2 0)
      ∧ List.Pairwise (· < ·) (genRunIDs (saveLastReservationID (genRunFinal none 2 0)) 2 0)
      ∧ ∀ a ∈ genRunIDs none 2 0,
          ∀ b ∈ genRunIDs (saveLastReservationID (genRunFinal none 2 0)) 2 0, a < b) :=
  ⟨by decide, c2_reservation_ids_strictly_increasing none 2 2 (by decide)⟩

/-! ## User registration -/

theorem usernameExists_false_iff : ∀ (users : List User) (name : String),
    usernameExists users name = false ↔ name ∉ users.map User.username
  | [], name => by simp [usernameExists]
  | u :: rest, name => by
    by_cases h : u.username = name
    · simp [usernameExists, h]
    · simp only [usernameExists, if_neg h, List.map_cons, List.mem_cons,
        usernameExists_false_iff rest name]
      constructor
      · rintro hn (rfl | hm)
        · exact h rfl
        · exact hn hm
      · intro hn hm
        exact hn (Or.inr hm)

/-- C6: usernames form a unique key under registerUser: registering a
duplicate username leaves the user list unchanged, registering a fresh one
appends exactly that user at the end, and distinctness of usernames is
preserved. -/
theorem c6_username_unique_key (users : List User) (newUser : User)
    (hdist : (users.map User.username).Nodup) :
    (newUser.username ∈ users.map User.username → registerUser users newUser = users)
    ∧ (newUser.username ∉ users.map User.username
        → registerUser users newUser = users ++ [newUser])
    ∧ ((registerUser users newUser).map User.username).Nodup := by
  by_cases hex : usernameExists users newUser.username
  · have hmem : newUser.username ∈ users.map User.username := by
      by_contra hn
      rw [← usernameExists_false_iff] at hn
      rw [hex] at hn
      cases hn
    refine ⟨fun _ => ?_, fun hn => absurd hmem hn, ?_⟩
    · unfold registerUser
      rw [if_pos hex]
    · unfold registerUser
      rw [if_pos hex]
      exact hdist
  · have hex0 : usernameExists users newUser.username = false := by
      simpa using hex
    have hnot : newUser.username ∉ users.map User.username :=
      (usernameExists_false_iff users newUser.username).1 hex0
    refine ⟨fun hm => absurd hm hnot, fun _ => ?_, ?_⟩
    · unfold registerUser
      rw [if_neg hex]
    · unfold registerUser
      rw [if_neg hex]
      rw [List.map_append]
      rw [List.nodup_append]
      refine ⟨hdist, List.nodup_singleton _, ?_⟩
      intro x hx hx1
      simp only [List.map_cons, List.map_nil, List.mem_singleton] at hx1
      subst hx1
      exact hnot hx

/-- Witness for C6 at a concrete user list. -/
theorem c6_username_unique_key_witness :
    ((([{ username := "a", password := "p", isAdmin := 0 }] : List User).map
        User.username).Nodup)
    ∧ (("b" ∈ ([{ username := "a", password := "p", isAdmin := 0 }] : List User).map
            User.username
        → registerUser [{ username := "a", password := "p", isAdmin := 0 }]
            { username := "b", password := "q", isAdmin := 0 }
            = [{ username := "a", password := "p", isAdmin := 0 }])
      ∧ ("b" ∉ ([{ username := "a", password := "p", isAdmin := 0 }] : List User).map
            User.username
        → registerUser [{ username := "a", password := "p", isAdmin := 0 }]
            { username := "b", password := "q", isAdmin := 0 }
            = [{ username := "a", password := "p", isAdmin := 0 },
               { username := "b", password := "q", isAdmin := 0 }])
      ∧ ((registerUser [{ username := "a", password := "p", isAdmin := 0 }]
            { username := "b", password := "q", isAdmin := 0 }).map User.username).Nodup) :=
  ⟨by decide,
    c6_username_unique_key [{ username := "a", password := "p", isAdmin := 0 }]
      { username := "b", password := "q", isAdmin := 0 } (by decide)⟩



/-! ## Status update lemmas -/

theorem countReservationsByFlight_update_approved :
    ∀ (rs : List Reservation) (resID : Int) (r : Reservation),
      findReservation rs resID = some r → r.status ≠ "Approved" →
      countReservationsByFlight (updateFirstStatusById resID "Approved" rs)
          r.flightNumber "Approved"
        = countReservationsByFlight rs r.flightNumber "Approved" + 1
  | [], resID, r, hr, _ => by simp [findReservation] at hr
  | x :: xs, resID, r, hr, hst => by
    by_cases hx : x.reservationID = resID
    · simp only [findReservation, if_pos hx, Option.some.injEq] at hr
      subst hr
      simp only [updateFirstStatusById, if_pos hx]
      simp [countReservationsByFlight, hst]
    · simp only [findReservation, if_neg hx] at hr
      have ih := countReservationsByFlight_update_approved xs resID r hr hst
      simp only [updateFirstStatusById, if_neg hx]
      simp only [countReservationsByFlight]
      by_cases hc : x.flightNumber = r.flightNumber ∧ x.status = "Approved"
      · rw [if_pos hc, if_pos hc, ih]
      · rw [if_neg hc, if_neg hc, ih]

theorem findReservation_update :
    ∀ (rs : List Reservation) (resID : Int) (r : Reservation) (st : String),
      findReservation rs resID = some r →
      findReservation (updateFirstStatusById resID st rs) resID
        = some { r with status := st }
  | [], _, _, _, h => by simp [findReservation] at h
  | x :: xs, resID, r, st, h => by
    by_cases hx : x.reservationID = resID
    · simp only [findReservation, if_pos hx, Option.some.injEq] at h
      subst h
      have hx2 : ({ x with status := st } : Reservation).reservationID = resID := hx
      simp only [updateFirstStatusById, if_pos hx, findReservation, if_pos hx2]
    · simp only [findReservation, if_neg hx] at h
      simp only [updateFirstStatusById, if_neg hx, findReservation, if_neg hx]
      exact findReservation_update xs resID r st h

theorem handleReservationApproval_yes (rs : List Reservation) (resID : Int)
    (r : Reservation) (h0 : resID ≠ 0) (hr : findReservation rs resID = some r) :
    handleReservationApproval rs resID "yes" = updateFirstStatusById resID "Approved" rs := by
  unfold handleReservationApproval
  rw [if_neg h0]
  simp [hr]

theorem handleReservationApproval_no (rs : List Reservation) (resID : Int)
    (r : Reservation) (h0 : resID ≠ 0) (hr : findReservation rs resID = some r) :
    handleReservationApproval rs resID "no" = updateFirstStatusById resID "Rejected" rs := by
  unfold handleReservationApproval
  rw [if_neg h0]
  simp [hr]

/-- C4: approving a reservation whose status is not yet Approved, for a
flight present in the flight list, decreases calculateAvailableSeats for
that flight by exactly 1 (no reservation or flight other than the approved
one changes). -/
theorem c4_approval_decrements_available_seats (flights : List Flight)
    (rs : List Reservation) (resID : Int) (r : Reservation) (f : Flight)
    (h0 : resID ≠ 0)
    (hr : findReservation rs resID = some r)
    (hst : r.status ≠ "Approved")
    (hfl : findFlight flights r.flightNumber = some f) :
    calculateAvailableSeats flights (handleReservationApproval rs resID "yes") r.flightNumber
      = calculateAvailableSeats flights rs r.flightNumber - 1 := by
  rw [handleReservationApproval_yes rs resID r h0 hr]
  simp only [calculateAvailableSeats, hfl]
  rw [countReservationsByFlight_update_approved rs resID r hr hst]
  push_cast
  ring

/-- Witness for C4: approving the single Pending reservation on the
one-seat flight takes the available seat count from 1 to 0. -/
theorem c4_approval_decrements_available_seats_witness :
    ((1 : Int) ≠ 0
      ∧ findReservation
          [{ reservationID := 1001, username := "u", flightNumber := 1,
             hotelID := -1, status := "Pending" }] 1001
        = some { reservationID := 1001, username := "u", flightNumber := 1,
                 hotelID := -1, status := "Pending" }
      ∧ ({ reservationID := 1001, username := "u", flightNumber := 1,
           hotelID := -1, status := "Pending" } : Reservation).status ≠ "Approved"
      ∧ findFlight oneSeatFlights 1
        = some { flightNumber := 1, origin := "A", destination := "B",
                 departureTime := "t1", arrivalTime := "t2", seatsAvailable := 1 })
    ∧ calculateAvailableSeats oneSeatFlights
        (handleReservationApproval
          [{ reservationID := 1001, username := "u", flightNumber := 1,
             hotelID := -1, status := "Pending" }] 1001 "yes") 1
      = calculateAvailableSeats oneSeatFlights
          [{ reservationID := 1001, username := "u", flightNumber := 1,
             hotelID := -1, status := "Pending" }] 1 - 1 :=
  ⟨⟨by decide, by decide, by decide, by decide⟩,
    c4_approval_decrements_available_seats oneSeatFlights
      [{ reservationID := 1001, username := "u", flightNumber := 1,
         hotelID := -1, status := "Pending" }] 1001
      { reservationID := 1001, username := "u", flightNumber := 1,
        hotelID := -1, status := "Pending" }
      { flightNumber := 1, origin := "A", destination := "B",
        departureTime := "t1", arrivalTime := "t2", seatsAvailable := 1 }
      (by decide) (by decide) (by decide) (by decide)⟩

/-- C9: handleReservationApproval imposes no precondition on the current
status of the targeted reservation: whatever the status, "yes" writes
Approved and "no" writes Rejected.  The operation reads neither the flight
nor the hotel list, so no availability is checked. -/
theorem c9_approval_ignores_status (rs : List Reservation) (resID : Int) (r : Reservation)
    (h0 : resID ≠ 0) (hr : findReservation rs resID = some r) :
    findReservation (handleReservationApproval rs resID "yes") resID
        = some { r with status := "Approved" }
    ∧ findReservation (handleReservationApproval rs resID "no") resID
        = some { r with status := "Rejected" } := by
  constructor
  · rw [handleReservationApproval_yes rs resID r h0 hr]
    exact findReservation_update rs resID r "Approved" hr
  · rw [handleReservationApproval_no rs resID r h0 hr]
    exact findReservation_update rs resID r "Rejected" hr

/-- Witness for C9 on a Cancelled reservation (no precondition on status). -/
theorem c9_approval_ignores_status_witness :
    ((1001 : Int) ≠ 0
      ∧ findReservation
          [{ reservationID := 1001, username := "u", flightNumber := 1,
             hotelID := -1, status := "Cancelled" }] 1001
        = some { reservationID := 1001, username := "u", flightNumber := 1,
                 hotelID := -1, status := "Cancelled" })
    ∧ (findReservation
        (handleReservationApproval
          [{ reservationID := 1001, username := "u", flightNumber := 1,
             hotelID := -1, status := "Cancelled" }] 1001 "yes") 1001
      = some { reservationID := 1001, username := "u", flightNumber := 1,
               hotelID := -1, status := "Approved" }
      ∧ findReservation
          (handleReservationApproval
            [{ reservationID := 1001, username := "u", flightNumber := 1,
               hotelID := -1, status := "Cancelled" }] 1001 "no") 1001
        = some { reservationID := 1001, username := "u", flightNumber := 1,
                 hotelID := -1, status := "Rejected" }) :=
  ⟨⟨by decide, by decide⟩,
    c9_approval_ignores_status
      [{ reservationID := 1001, username := "u", flightNumber := 1,
         hotelID := -1, status := "Cancelled" }] 1001
      { reservationID := 1001, username := "u", flightNumber := 1,
        hotelID := -1, status := "Cancelled" }
      (by decide) (by decide)⟩

/-! ## Cancellation request lemmas -/

theorem cancelLoop_not_approved :
    ∀ (rs : List Reservation) (username : String) (resID : Int) (r : Reservation),
      findUserReservation rs username resID = some r → r.status ≠ "Approved" →
      cancelLoop username resID rs = rs
  | [], _, _, _, h, _ => by simp [findUserReservation] at h
  | x :: xs, username, resID, r, h, hst => by
    by_cases hx : x.reservationID = resID ∧ x.username = username
    · simp only [findUserReservation, if_pos hx, Option.some.injEq] at h
      subst h
      simp only [cancelLoop, if_pos hx, if_neg hst]
    · simp only [findUserReservation, if_neg hx] at h
      simp only [cancelLoop, if_neg hx]
      rw [cancelLoop_not_approved xs username resID r h hst]

theorem cancelLoop_approved_find :
    ∀ (rs : List Reservation) (username : String) (resID : Int) (r : Reservation),
      findUserReservation rs username resID = some r → r.status = "Approved" →
      findUserReservation (cancelLoop username resID rs) username resID
        = some { r with status := "Cancel Requested" }
  | [], _, _, _, h, _ => by simp [findUserReservation] at h
  | x :: xs, username, resID, r, h, hst => by
    by_cases hx : x.reservationID = resID ∧ x.username = username
    · simp only [findUserReservation, if_pos hx, Option.some.injEq] at h
      subst h
      have hx2 : ({ x with status := "Cancel Requested" } : Reservation).reservationID = resID
          ∧ ({ x with status := "Cancel Requested" } : Reservation).username = username := hx
      simp only [cancelLoop, if_pos hx, if_pos hst, findUserReservation, if_pos hx2]
    · simp only [findUserReservation, if_neg hx] at h
      simp only [cancelLoop, if_neg hx, findUserReservation, if_neg hx]
      exact cancelLoop_approved_find xs username resID r h hst

/-- C3: a cancellation request on a reservation owned by the requesting
user changes its status, to "Cancel Requested", exactly when its current
status is "Approved"; in every other status the request is rejected and
the reservation list stays unchanged. -/
theorem c3_cancel_only_from_approved (rs : List Reservation) (username : String)
    (resID : Int) (r : Reservation)
    (h0 : resID ≠ 0)
    (hr : findUserReservation rs username resID = some r) :
    (r.status = "Approved" →
      findUserReservation (cancelUserReservation rs username resID) username resID
          = some { r with status := "Cancel Requested" }
      ∧ cancelUserReservation rs username resID ≠ rs)
    ∧ (r.status ≠ "Approved" → cancelUserReservation rs username resID = rs) := by
  unfold cancelUserReservation
  rw [if_neg h0]
  constructor
  · intro hst
    have hfind := cancelLoop_approved_find rs username resID r hr hst
    refine ⟨hfind, ?_⟩
    intro heq
    rw [heq, hr] at hfind
    have : r.status = "Cancel Requested" := congrArg Reservation.status (Option.some.inj hfind)
    rw [hst] at this
    exact absurd this (by decide)
  · intro hst
    exact cancelLoop_not_approved rs username resID r hr hst

/-- Witness for C3 on a one-element reservation list in Approved status. -/
theorem c3_cancel_only_from_approved_witness :
    ((1001 : Int) ≠ 0
      ∧ findUserReservation
          [{ reservationID := 1001, username := "u", flightNumber := 1,
             hotelID := -1, status := "Approved" }] "u" 1001
        = some { reservationID := 1001, username := "u", flightNumber := 1,
                 hotelID := -1, status := "Approved" })
    ∧ ((({ reservationID := 1001, username := "u", flightNumber := 1,
           hotelID := -1, status := "Approved" } : Reservation).status = "Approved" →
        findUserReservation
            (cancelUserReservation
              [{ reservationID := 1001, username := "u", flightNumber := 1,
                 hotelID := -1, status := "Approved" }] "u" 1001) "u" 1001
          = some { reservationID := 1001, username := "u", flightNumber := 1,
                   hotelID := -1, status := "Cancel Requested" }
        ∧ cancelUserReservation
            [{ reservationID := 1001, username := "u", flightNumber := 1,
               hotelID := -1, status := "Approved" }] "u" 1001
          ≠ [{ reservationID := 1001, username := "u", flightNumber := 1,
               hotelID := -1, status := "Approved" }])
      ∧ (({ reservationID := 1001, username := "u", flightNumber := 1,
            hotelID := -1, status := "Approved" } : Reservation).status ≠ "Approved" →
          cancelUserReservation
            [{ reservationID := 1001, username := "u", flightNumber := 1,
               hotelID := -1, status := "Approved" }] "u" 1001
          = [{ reservationID := 1001, username := "u", flightNumber := 1,
               hotelID := -1, status := "Approved" }])) :=
  ⟨⟨by decide, by decide⟩,
    c3_cancel_only_from_approved
      [{ reservationID := 1001, username := "u", flightNumber := 1,
         hotelID := -1, status := "Approved" }] "u" 1001
      { reservationID := 1001, username := "u", flightNumber := 1,
        hotelID := -1, status := "Approved" }
      (by decide) (by decide)⟩



/-! ## Reference field preservation -/

theorem updateFirstStatusById_map_refFields :
    ∀ (rs : List Reservation) (resID : Int) (st : String),
      (updateFirstStatusById resID st rs).map refFields = rs.map refFields
  | [], _, _ => rfl
  | x :: xs, resID, st => by
    by_cases hx : x.reservationID = resID
    · simp [updateFirstStatusById, if_pos hx, refFields]
    · simp only [updateFirstStatusById, if_neg hx, List.map_cons,
        updateFirstStatusById_map_refFields xs resID st]

theorem cancelLoop_map_refFields :
    ∀ (rs : List Reservation) (username : String) (resID : Int),
      (cancelLoop username resID rs).map refFields = rs.map refFields
  | [], _, _ => rfl
  | x :: xs, username, resID => by
    by_cases hx : x.reservationID = resID ∧ x.username = username
    · by_cases hst : x.status = "Approved"
      · simp [cancelLoop, if_pos hx, if_pos hst, refFields]
      · simp [cancelLoop, if_pos hx, if_neg hst]
    · simp only [cancelLoop, if_neg hx, List.map_cons,
        cancelLoop_map_refFields xs username resID]

theorem handleReservationApproval_map_refFields (rs : List Reservation)
    (resID : Int) (decision : String) :
    (handleReservationApproval rs resID decision).map refFields = rs.map refFields := by
  unfold handleReservationApproval
  split
  · rfl
  split
  · rfl
  split
  · exact updateFirstStatusById_map_refFields rs resID "Approved"
  split
  · exact updateFirstStatusById_map_refFields rs resID "Rejected"
  · rfl

theorem handleCancellationRequests_map_refFields (rs : List Reservation)
    (resID : Int) (decision : String) :
    (handleCancellationRequests rs resID decision).map refFields = rs.map refFields := by
  unfold handleCancellationRequests
  split
  · rfl
  split
  · rfl
  split
  · rfl
  split
  · exact updateFirstStatusById_map_refFields rs resID "Cancelled"
  split
  · exact updateFirstStatusById_map_refFields rs resID "Approved"
  · rfl

theorem cancelUserReservation_map_refFields (rs : List Reservation)
    (username : String) (resID : Int) :
    (cancelUserReservation rs username resID).map refFields = rs.map refFields := by
  unfold cancelUserReservation
  split
  · rfl
  · exact cancelLoop_map_refFields rs username resID

theorem exactlyOneRef_of_map_refFields_eq {rs rs2 : List Reservation}
    (h : rs2.map refFields = rs.map refFields)
    (hinv : ∀ r ∈ rs, exactlyOneRef r) : ∀ r ∈ rs2, exactlyOneRef r := by
  intro r hm
  have hmem : refFields r ∈ rs.map refFields := by
    rw [← h]
    exact List.mem_map_of_mem refFields hm
  obtain ⟨x, hx, hfx⟩ := List.mem_map.1 hmem
  have hex := hinv x hx
  unfold refFields at hfx
  obtain ⟨h1, h2⟩ := Prod.ext_iff.1 hfx
  unfold exactlyOneRef at hex ⊢
  dsimp at h1 h2
  rw [h1, h2] at hex
  exact hex

/-- C5: makeFlightReservation only ever adds a reservation with
hotelID = -1 whose flightNumber is the key of a listed flight, and
makeHotelReservation symmetrically; every status operation leaves the
flightNumber and hotelID fields of every reservation untouched; hence the
exactly-one-reference invariant propagates to every reachable state (the
hypotheses rule out a flight or hotel actually keyed by the sentinel -1).
-/
theorem c5_exactly_one_reference (flights : List Flight) (hotels : List Hotel)
    (rs : List Reservation) (u1 u2 cu : String)
    (fn hid newID1 newID2 resID1 resID2 resID3 : Int) (d1 d2 : String)
    (hfNeg : findFlight flights (-1) = none)
    (hhNeg : findHotel hotels (-1) = none)
    (hinv : ∀ r ∈ rs, exactlyOneRef r) :
    (makeFlightReservation flights rs u1 fn newID1 = rs
      ∨ ((∃ f ∈ flights, f.flightNumber = fn) ∧ fn ≠ -1
          ∧ makeFlightReservation flights rs u1 fn newID1
              = { reservationID := newID1, username := u1, flightNumber := fn,
                  hotelID := -1, status := "Pending" } :: rs))
    ∧ (makeHotelReservation hotels rs u2 hid newID2 = rs
      ∨ ((∃ h ∈ hotels, h.hotelID = hid) ∧ hid ≠ -1
          ∧ makeHotelReservation hotels rs u2 hid newID2
              = { reservationID := newID2, username := u2, flightNumber := -1,
                  hotelID := hid, status := "Pending" } :: rs))
    ∧ (handleReservationApproval rs resID1 d1).map refFields = rs.map refFields
    ∧ (cancelUserReservation rs cu resID2).map refFields = rs.map refFields
    ∧ (handleCancellationRequests rs resID3 d2).map refFields = rs.map refFields
    ∧ (∀ r ∈ makeFlightReservation flights rs u1 fn newID1, exactlyOneRef r)
    ∧ (∀ r ∈ makeHotelReservation hotels rs u2 hid newID2, exactlyOneRef r)
    ∧ (∀ r ∈ handleReservationApproval rs resID1 d1, exactlyOneRef r)
    ∧ (∀ r ∈ cancelUserReservation rs cu resID2, exactlyOneRef r)
    ∧ (∀ r ∈ handleCancellationRequests rs resID3 d2, exactlyOneRef r) := by
  have hflight : makeFlightReservation flights rs u1 fn newID1 = rs
      ∨ ((∃ f ∈ flights, f.flightNumber = fn) ∧ fn ≠ -1
          ∧ makeFlightReservation flights rs u1 fn newID1
              = { reservationID := newID1, username := u1, flightNumber := fn,
                  hotelID := -1, status := "Pending" } :: rs) := by
    rcases makeFlightReservation_cases flights rs u1 fn newID1 with heq | ⟨⟨f, hsome, hmem, hkey⟩, -, heq⟩
    · exact Or.inl heq
    · refine Or.inr ⟨⟨f, hmem, hkey⟩, ?_, heq⟩
      intro hneg
      rw [hneg, hfNeg] at hsome
      cases hsome
  have hhotel : makeHotelReservation hotels rs u2 hid newID2 = rs
      ∨ ((∃ h ∈ hotels, h.hotelID = hid) ∧ hid ≠ -1
          ∧ makeHotelReservation hotels rs u2 hid newID2
              = { reservationID := newID2, username := u2, flightNumber := -1,
                  hotelID := hid, status := "Pending" } :: rs) := by
    rcases makeHotelReservation_cases hotels rs u2 hid newID2 with heq | ⟨⟨h, hsome, hmem, hkey⟩, -, heq⟩
    · exact Or.inl heq
    · refine Or.inr ⟨⟨h, hmem, hkey⟩, ?_, heq⟩
      intro hneg
      rw [hneg, hhNeg] at hsome
      cases hsome
  have hm1 := handleReservationApproval_map_refFields rs resID1 d1
  have hm2 := cancelUserReservation_map_refFields rs cu resID2
  have hm3 := handleCancellationRequests_map_refFields rs resID3 d2
  refine ⟨hflight, hhotel, hm1, hm2, hm3, ?_, ?_,
    exactlyOneRef_of_map_refFields_eq hm1 hinv,
    exactlyOneRef_of_map_refFields_eq hm2 hinv,
    exactlyOneRef_of_map_refFields_eq hm3 hinv⟩
  · rcases hflight with heq | ⟨-, hne, heq⟩ <;> rw [heq]
    · exact hinv
    · intro r hm
      rcases List.mem_cons.1 hm with rfl | hm
      · exact Or.inl ⟨rfl, hne⟩
      · exact hinv r hm
  · rcases hhotel with heq | ⟨-, hne, heq⟩ <;> rw [heq]
    · exact hinv
    · intro r hm
      rcases List.mem_cons.1 hm with rfl | hm
      · exact Or.inr ⟨rfl, hne⟩
      · exact hinv r hm

/-- Witness for C5 at a concrete state: one flight numbered 1, one hotel
numbered 2, empty reservation list. -/
theorem c5_exactly_one_reference_witness :
    (findFlight oneSeatFlights (-1) = none
      ∧ findHotel [{ hotelID := 2, name := "H", location := "L", roomsAvailable := 3 }] (-1) = none
      ∧ ∀ r ∈ ([] : List Reservation), exactlyOneRef r)
    ∧ ((makeFlightReservation oneSeatFlights [] "a" 1 1001 = []
      ∨ ((∃ f ∈ oneSeatFlights, f.flightNumber = 1) ∧ (1 : Int) ≠ -1
          ∧ makeFlightReservation oneSeatFlights [] "a" 1 1001
              = [{ reservationID := 1001, username := "a", flightNumber := 1,
                   hotelID := -1, status := "Pending" }]))
    ∧ (makeHotelReservation [{ hotelID := 2, name := "H", location := "L", roomsAvailable := 3 }] [] "b" 2 1002 = []
      ∨ ((∃ h ∈ [({ hotelID := 2, name := "H", location := "L", roomsAvailable := 3 } : Hotel)], h.hotelID = 2) ∧ (2 : Int) ≠ -1
          ∧ makeHotelReservation [{ hotelID := 2, name := "H", location := "L", roomsAvailable := 3 }] [] "b" 2 1002
              = [{ reservationID := 1002, username := "b", flightNumber := -1,
                   hotelID := 2, status := "Pending" }]))
    ∧ (handleReservationApproval [] 1001 "yes").map refFields = ([] : List Reservation).map refFields
    ∧ (cancelUserReservation [] "a" 1001).map refFields = ([] : List Reservation).map refFields
    ∧ (handleCancellationRequests [] 1001 "yes").map refFields = ([] : List Reservation).map refFields
    ∧ (∀ r ∈ makeFlightReservation oneSeatFlights [] "a" 1 1001, exactlyOneRef r)
    ∧ (∀ r ∈ makeHotelReservation [{ hotelID := 2, name := "H", location := "L", roomsAvailable := 3 }] [] "b" 2 1002, exactlyOneRef r)
    ∧ (∀ r ∈ handleReservationApproval [] 1001 "yes", exactlyOneRef r)
    ∧ (∀ r ∈ cancelUserReservation [] "a" 1001, exactlyOneRef r)
    ∧ (∀ r ∈ handleCancellationRequests [] 1001 "yes", exactlyOneRef r)) :=
  ⟨⟨by decide, by decide, by decide⟩,
    c5_exactly_one_reference oneSeatFlights
      [{ hotelID := 2, name := "H", location := "L", roomsAvailable := 3 }] []
      "a" "b" "a" 1 2 1001 1002 1001 1001 1001 "yes" "yes"
      (by decide) (by decide) (by decide)⟩

/-! ## Displayed seats (listFlightsUser) -/

/-- C10: the seat figure shown by listFlightsUser equals
max(0, seatsAvailable - (Pending + Approved)); it never exceeds the
booking-time figure calculateAvailableSeats when the latter is
non-negative, strictly so when a Pending reservation exists and the
displayed figure is positive. -/
theorem c10_displayed_seats_conservative (flights : List Flight)
    (rs : List Reservation) (f : Flight)
    (hf : findFlight flights f.flightNumber = some f) :
    listFlightsUserAvailableSeats rs f
      = max 0 (f.seatsAvailable
          - ((countReservationsByFlight rs f.flightNumber "Pending" : Int)
            + (countReservationsByFlight rs f.flightNumber "Approved" : Int)))
    ∧ (0 ≤ calculateAvailableSeats flights rs f.flightNumber
        → listFlightsUserAvailableSeats rs f
            ≤ calculateAvailableSeats flights rs f.flightNumber)
    ∧ (1 ≤ countReservationsByFlight rs f.flightNumber "Pending"
        → 0 < listFlightsUserAvailableSeats rs f
        → listFlightsUserAvailableSeats rs f
            < calculateAvailableSeats flights rs f.flightNumber) := by
  simp only [calculateAvailableSeats, listFlightsUserAvailableSeats, hf]
  set p : Int := (countReservationsByFlight rs f.flightNumber "Pending" : Int) with hpdef
  set a : Int := (countReservationsByFlight rs f.flightNumber "Approved" : Int) with hadef
  have hp0 : (0 : Int) ≤ p := by
    rw [hpdef]
    exact Int.ofNat_nonneg _
  refine ⟨?_, ?_, ?_⟩
  · rcases lt_or_le (f.seatsAvailable - (p + a)) 0 with h | h
    · rw [if_pos h, max_eq_left h.le]
    · rw [if_neg (not_lt.2 h), max_eq_right h]
  · intro hcalc
    rcases lt_or_le (f.seatsAvailable - (p + a)) 0 with h | h
    · rw [if_pos h]
      exact hcalc
    · rw [if_neg (not_lt.2 h)]
      omega
  · intro hpend hdisp
    have hp1 : (1 : Int) ≤ p := by
      rw [hpdef]
      exact_mod_cast hpend
    rcases lt_or_le (f.seatsAvailable - (p + a)) 0 with h | h
    · rw [if_pos h] at hdisp
      omega
    · rw [if_neg (not_lt.2 h)] at hdisp ⊢
      omega

/-- Witness for C10: one-seat flight with one Pending reservation shows 0
seats to the user while calculateAvailableSeats still returns 1. -/
theorem c10_displayed_seats_conservative_witness :
    findFlight oneSeatFlights
        ({ flightNumber := 1, origin := "A", destination := "B", departureTime := "t1",
           arrivalTime := "t2", seatsAvailable := 1 } : Flight).flightNumber
      = some { flightNumber := 1, origin := "A", destination := "B", departureTime := "t1",
               arrivalTime := "t2", seatsAvailable := 1 }
    ∧ (listFlightsUserAvailableSeats
          [{ reservationID := 1001, username := "u", flightNumber := 1,
             hotelID := -1, status := "Pending" }]
          { flightNumber := 1, origin := "A", destination := "B", departureTime := "t1",
            arrivalTime := "t2", seatsAvailable := 1 }
        = max 0 (({ flightNumber := 1, origin := "A", destination := "B", departureTime := "t1",
                    arrivalTime := "t2", seatsAvailable := 1 } : Flight).seatsAvailable
            - ((countReservationsByFlight
                  [{ reservationID := 1001, username := "u", flightNumber := 1,
                     hotelID := -1, status := "Pending" }] 1 "Pending" : Int)
              + (countReservationsByFlight
                  [{ reservationID := 1001, username := "u", flightNumber := 1,
                     hotelID := -1, status := "Pending" }] 1 "Approved" : Int)))
      ∧ (0 ≤ calculateAvailableSeats oneSeatFlights
            [{ reservationID := 1001, username := "u", flightNumber := 1,
               hotelID := -1, status := "Pending" }] 1
          → listFlightsUserAvailableSeats
              [{ reservationID := 1001, username := "u", flightNumber := 1,
                 hotelID := -1, status := "Pending" }]
              { flightNumber := 1, origin := "A", destination := "B", departureTime := "t1",
                arrivalTime := "t2", seatsAvailable := 1 }
            ≤ calculateAvailableSeats oneSeatFlights
                [{ reservationID := 1001, username := "u", flightNumber := 1,
                   hotelID := -1, status := "Pending" }] 1)
      ∧ (1 ≤ countReservationsByFlight
              [{ reservationID := 1001, username := "u", flightNumber := 1,
                 hotelID := -1, status := "Pending" }] 1 "Pending"
          → 0 < listFlightsUserAvailableSeats
              [{ reservationID := 1001, username := "u", flightNumber := 1,
                 hotelID := -1, status := "Pending" }]
              { flightNumber := 1, origin := "A", destination := "B", departureTime := "t1",
                arrivalTime := "t2", seatsAvailable := 1 }
          → listFlightsUserAvailableSeats
              [{ reservationID := 1001, username := "u", flightNumber := 1,
                 hotelID := -1, status := "Pending" }]
              { flightNumber := 1, origin := "A", destination := "B", departureTime := "t1",
                arrivalTime := "t2", seatsAvailable := 1 }
            < calculateAvailableSeats oneSeatFlights
                [{ reservationID := 1001, username := "u", flightNumber := 1,
                   hotelID := -1, status := "Pending" }] 1)) :=
  ⟨by decide,
    c10_displayed_seats_conservative oneSeatFlights
      [{ reservationID := 1001, username := "u", flightNumber := 1,
         hotelID := -1, status := "Pending" }]
      { flightNumber := 1, origin := "A", destination := "B", departureTime := "t1",
        arrivalTime := "t2", seatsAvailable := 1 }
      (by decide)⟩


end Booking
